import Mathlib

/-!
Verification of the piano-move-team quote intake endpoint
(`src/api/quote.js`, final revision: the variant that generates a PDF job
sheet, uploads it to Supabase storage, inserts a database row and sends two
emails through Resend).  The submission pipeline, the identifier derivation
(job reference, slug, thread id) and the job-sheet layout cursor arithmetic
are embedded shallowly below; external collaborators (storage, database,
email provider, system clock) are modelled by a `World` record holding the
outcome each of their calls would produce, and the handler is a pure
function from a `World` and a request to a response plus a trace of the
side effects it performed, in order.
-/

set_option maxHeartbeats 1000000

namespace PianoMove

/-- List-level check that `needle` occurs at the very start of `hay`. -/
def startsWithL : List Char → List Char → Bool
  | [], _ => true
  | _ :: _, [] => false
  | a :: as, b :: bs => a = b && startsWithL as bs

/-- List-level check that `needle` occurs as a contiguous run inside `hay`
(verbatim substring occurrence). -/
def subOf (needle hay : List Char) : Bool :=
  match hay with
  | [] => needle.isEmpty
  | _ :: t => startsWithL needle hay || subOf needle t

/-- Substring occurrence between strings, via the char lists. -/
def strContains (hay needle : String) : Bool :=
  subOf needle.data hay.data

/-- Character class of the email regex `[^\s@]`: anything except whitespace
and the at sign (`src/api/quote.js` line 645). -/
def isEmailChar (c : Char) : Bool :=
  !(c.isWhitespace || c = '@')

/-- Split a char list on a separator character, keeping empty segments,
like splitting on every occurrence of the separator. -/
def splitChar (sep : Char) : List Char → List (List Char)
  | [] => [[]]
  | c :: rest =>
    let tail := splitChar sep rest
    if c = sep then [] :: tail
    else
      match tail with
      | [] => [[c]]
      | seg :: segs => (c :: seg) :: segs

/-- The email validation regex `/^[^\s@]+@[^\s@]+\.[^\s@]+$/` of
`src/api/quote.js` line 645: exactly one `@`, a non-empty run of
non-space-non-`@` characters before it, and after it a non-empty
run that contains a dot which is neither its first nor its last
character (both sides of that dot non-empty). -/
def validEmail (s : String) : Bool :=
  match splitChar '@' s.data with
  | [a, b] =>
    !a.isEmpty && a.all isEmailChar &&
    !b.isEmpty && b.all isEmailChar &&
    ((b.drop 1).dropLast).contains '.'
  | _ => false

/-- Lowercase letters and digits: the characters the slug keeps
(the regex class `[a-z0-9]` of `src/api/quote.js` line 698). -/
def isSlugChar (c : Char) : Bool :=
  ('a' ≤ c && c ≤ 'z') || ('0' ≤ c && c ≤ '9')

/-- Per-character effect of `toLowerCase()` followed by
`replace(/[^a-z0-9]/g, '-')`: lowercase the character (ASCII case
mapping; the claims are insensitive to the non-ASCII corners of the
JavaScript Unicode mapping because any such character is replaced by a
hyphen either way), keep it when it is a lowercase letter or digit, and
turn it into a hyphen otherwise. -/
def slugMap (c : Char) : Char :=
  let l := c.toLower
  if isSlugChar l then l else '-'

/-- Collapse every run of consecutive hyphens to a single hyphen:
the replace-hyphen-runs step of `src/api/quote.js` line 698. -/
def collapse : List Char → List Char
  | [] => []
  | [c] => [c]
  | a :: b :: rest =>
    if a = '-' ∧ b = '-' then collapse (b :: rest)
    else a :: collapse (b :: rest)

/-- Remove one leading and one trailing hyphen when present: the
`replace(/^-|-$/g, '')` step of `src/api/quote.js` line 698 (the anchored
alternation can match at most once at each end). -/
def dropEdgeHyphens (cs : List Char) : List Char :=
  let cs1 := if cs.head? = some '-' then cs.tail else cs
  if cs1.getLast? = some '-' then cs1.dropLast else cs1

/-- The slug of a full name (`src/api/quote.js` line 698): lowercase the
name, replace every character outside `[a-z0-9]` with a hyphen, collapse
hyphen runs, then strip a leading and a trailing hyphen. -/
def slug (s : String) : String :=
  String.mk (dropEdgeHyphens (collapse (s.data.map slugMap)))

/-- The threading identifier built from the slug
(`src/api/quote.js` line 699). -/
def threadId (fullname : String) : String :=
  "<quote-" ++ slug fullname ++ "@pianomoveteam.co.uk>"

/-- Last six characters of a string, or the whole string when shorter:
JavaScript `slice(-6)` as used on the decimal timestamp string. -/
def lastSix (s : String) : String :=
  String.mk (s.data.drop (s.data.length - 6))

/-- Job reference generated for a submission (`src/api/quote.js` line 664):
the constant tag `PMT-` followed by the last six digits of `Date.now()`. -/
def mkJobRef (now : Nat) : String :=
  "PMT-" ++ lastSix (toString now)

/-- Timestamp sanitisation of `src/api/quote.js` line 665:
`new Date().toISOString().replace(/[:.]/g, '-')`. -/
def sanitizeTs (iso : String) : String :=
  String.mk (iso.data.map (fun c => if c = ':' ∨ c = '.' then '-' else c))

/-- Storage path of the job-sheet document (`src/api/quote.js` line 673). -/
def mkPdfFileName (jobRef ts : String) : String :=
  "job-sheets/" ++ jobRef ++ "-" ++ ts ++ ".pdf"

deriving instance DecidableEq for Except

/-- JavaScript truthiness of an optional string field: present and
non-empty (the empty string is falsy). -/
def truthy : Option String → Bool
  | none => false
  | some s => !s.isEmpty

/-- One entry of the caller-supplied `attachments` array; either field may
be absent in the raw JSON object. `content` carries the base64 payload. -/
structure AttachmentInput where
  filename : Option String
  content : Option String
deriving DecidableEq, Repr

/-- One decoded attachment handed to the email provider. The base64 decode
(`Buffer.from(content, 'base64')`) never fails and the claims never inspect
the bytes, so the payload is carried through as its source string. -/
structure Attachment where
  filename : String
  content : String
deriving DecidableEq, Repr

/-- The request body (`req.body`) as the handler reads it. Required
fields are strings (absent and empty are both falsy and are rejected the
same way); optional fields are optional strings. The step counts reach
`toString()` inside the PDF generator and are integers in every caller. -/
structure QuoteRequest where
  fullname : String
  email : String
  phone : String
  pianotype : Option String
  pickup_postcode : String
  pickup_steps : Int
  delivery_postcode : String
  delivery_steps : Int
  specialrequirements : Option String
  attachments : Option (List AttachmentInput)
deriving DecidableEq, Repr

/-- Outcomes the external collaborators would return during one
invocation: the clock, the storage upload, the database insert, and the
two email sends. The Supabase and Resend clients report failure through a
result object rather than by throwing, so each outcome is an `Except`
value the handler is free to inspect or ignore, exactly as the source
does. -/
structure World where
  now : Nat
  isoNow : String
  storageBaseUrl : String
  uploadResult : Except String Unit
  insertResult : Except String Unit
  businessEmail : Except String String
  customerEmail : Except String String
deriving DecidableEq, Repr

/-- The row inserted into the `quotes` table (`src/api/quote.js`
lines 711-725). -/
structure DbRow where
  job_ref : String
  customer_name : String
  customer_email : String
  customer_phone : String
  piano_type : Option String
  pickup_postcode : String
  pickup_steps : Int
  delivery_postcode : String
  delivery_steps : Int
  special_requirements : Option String
  pdf_url : String
  attachments_count : Nat
  created_at : String
deriving DecidableEq, Repr

/-- A structured email send request as handed to the provider. The HTML
body is identified by which template built it (the markup itself is pure
string interpolation, outside the claims). -/
structure EmailMsg where
  fromAddr : String
  toAddrs : List String
  cc : List String
  replyTo : Option String
  subject : String
  htmlTemplate : String
  attachments : List Attachment
  headers : List (String × String)
deriving DecidableEq, Repr

/-- External calls and log lines, recorded in the order the handler
performs them. -/
inductive Effect where
  | log (line : String)
  | render (jobRef : String)
  | upload (path : String)
  | insertRow (row : DbRow)
  | sendEmail (msg : EmailMsg)
deriving DecidableEq, Repr

/-- The success payload of the 200 response (`src/api/quote.js`
lines 760-767). -/
structure SuccessBody where
  emailId : Option String
  pdfUrl : String
  jobRef : String
  attachments : Nat
deriving DecidableEq, Repr

/-- The handler's response: 200 success, 400 validation failure
(with the `required` field list when present), or 500 server error. -/
inductive Response where
  | success (body : SuccessBody)
  | validationError (error : String) (required : List String)
  | serverError (error : String)
deriving DecidableEq, Repr

/-- Whether a response is the 400 validation failure. -/
def Response.isValidation : Response → Bool
  | .validationError _ _ => true
  | _ => false

/-- The `required` field list carried by a validation failure. -/
def Response.requiredFields : Response → List String
  | .validationError _ r => r
  | _ => []

/-- The attachment count reported by a success response. -/
def Response.attachCount : Response → Option Nat
  | .success b => some b.attachments
  | _ => none

/-- Decoding loop of `src/api/quote.js` lines 651-661: keep an entry only
when both `content` and `filename` are truthy, preserving order. -/
def customerAttachmentsOf (d : QuoteRequest) : List Attachment :=
  match d.attachments with
  | none => []
  | some l =>
    l.filterMap fun f =>
      if truthy f.content ∧ truthy f.filename then
        some ⟨f.filename.getD "", f.content.getD ""⟩
      else none

/-- Subject of the internal business notification email
(`src/api/quote.js` line 733). -/
def businessSubject (d : QuoteRequest) : String :=
  "Piano Quote - " ++ d.fullname ++
    (if (customerAttachmentsOf d).length > 0 then
      " (" ++ toString (customerAttachmentsOf d).length ++ " photos)"
    else "") ++ " + PDF"

/-- Stand-in for the rendered PDF bytes; the pipeline treats the document
as an opaque buffer and no claim inspects its bytes. -/
def pdfBytes (jobRef : String) : String :=
  "pdf-" ++ jobRef

/-- The combined attachment list of the business email
(`src/api/quote.js` lines 702-708): customer photos then the job sheet. -/
def allAttachmentsOf (d : QuoteRequest) (jobRef : String) : List Attachment :=
  customerAttachmentsOf d ++ [⟨"Job-Sheet-" ++ jobRef ++ ".pdf", pdfBytes jobRef⟩]

/-- The database row built for the insert (`src/api/quote.js`
lines 711-725). -/
def mkRow (d : QuoteRequest) (jobRef pdfPublicUrl createdAt : String) : DbRow :=
  { job_ref := jobRef
    customer_name := d.fullname
    customer_email := d.email
    customer_phone := d.phone
    piano_type := d.pianotype
    pickup_postcode := d.pickup_postcode
    pickup_steps := d.pickup_steps
    delivery_postcode := d.delivery_postcode
    delivery_steps := d.delivery_steps
    special_requirements := d.specialrequirements
    pdf_url := pdfPublicUrl
    attachments_count := (customerAttachmentsOf d).length
    created_at := createdAt }

/-- The internal business notification email (`src/api/quote.js`
lines 728-741). -/
def businessMsg (d : QuoteRequest) (jobRef : String) : EmailMsg :=
  { fromAddr := "Piano Quote <quotes@pianomoveteam.co.uk>"
    toAddrs := ["thenorthpiano@googlemail.com"]
    cc := ["gogoo.ltd@gmail.com"]
    replyTo := some d.email
    subject := businessSubject d
    htmlTemplate := "generateEmailForYou"
    attachments := allAttachmentsOf d jobRef
    headers :=
      [("References", threadId d.fullname),
       ("In-Reply-To", threadId d.fullname),
       ("X-Entity-Ref-ID", "customer-" ++ slug d.fullname)] }

/-- The customer acknowledgement email (`src/api/quote.js`
lines 751-756). -/
def customerMsg (d : QuoteRequest) : EmailMsg :=
  { fromAddr := "Piano Move Team <noreply@pianomoveteam.co.uk>"
    toAddrs := [d.email]
    cc := []
    replyTo := none
    subject := "Thank you for your piano moving quote request"
    htmlTemplate := "generateEmailForCustomer"
    attachments := []
    headers := [] }

/-- The POST branch of the handler (`src/api/quote.js` lines 634-772),
step for step: validation, attachment decoding, identifier derivation,
PDF render, storage upload (fatal on error via the thrown exception and
the outer catch), database insert with the result ignored, business email
(fatal on error), customer email with the result ignored, success
response. -/
def handlePost (w : World) (d : QuoteRequest) : Response × List Effect :=
  if d.fullname = "" ∨ d.email = "" ∨ d.phone = "" then
    (.validationError "Missing required fields" ["fullname", "email", "phone"], [])
  else if validEmail d.email = false then
    (.validationError "Invalid email format" [], [])
  else
    let jobRef := mkJobRef w.now
    let ts := sanitizeTs w.isoNow
    let pdfFileName := mkPdfFileName jobRef ts
    let pre : List Effect :=
      [.log ("Quote from " ++ d.fullname ++ " - Generating PDF..."),
       .render jobRef,
       .upload pdfFileName]
    match w.uploadResult with
    | .error _ =>
      (.serverError "Failed to upload PDF to storage",
        pre ++ [.log "Supabase upload error", .log "API error"])
    | .ok _ =>
      let pdfPublicUrl := w.storageBaseUrl ++ pdfFileName
      let row := mkRow d jobRef pdfPublicUrl w.isoNow
      let pre2 := pre ++
        [.log ("PDF uploaded to Supabase: " ++ pdfPublicUrl),
         .insertRow row,
         .sendEmail (businessMsg d jobRef)]
      match w.businessEmail with
      | .error msg =>
        (.serverError msg, pre2 ++ [.log "Resend error"])
      | .ok id =>
        (.success
          { emailId := some id
            pdfUrl := pdfPublicUrl
            jobRef := jobRef
            attachments := (allAttachmentsOf d jobRef).length },
         pre2 ++
           [.log ("Email sent with PDF link. ID: " ++ id),
            .sendEmail (customerMsg d),
            .log ("Auto-response sent to " ++ d.email)])

/-- The exported handler with method routing (`src/api/quote.js`
lines 621-632): OPTIONS preflight gets an empty 200, any method other
than POST gets a 405, POST runs the pipeline. -/
def handler (method : String) (w : World) (d : QuoteRequest) :
    Response × List Effect :=
  if method = "OPTIONS" then (.success ⟨none, "", "", 0⟩, [])
  else if method ≠ "POST" then (.serverError "Method not allowed", [])
  else handlePost w d

/-- A4 page width in points (`pdfkit` size A4). -/
def pageWidth : ℚ := 59528 / 100

/-- A4 page height in points (`pdfkit` size A4). -/
def pageHeight : ℚ := 84189 / 100

/-- Character capacity of one wrapped line in the special-requirements box
(width `doc.page.width - 100` at 10pt Helvetica); the exact figure does
not matter to any claim, only that it is a fixed positive capacity. -/
def maxCols : Nat := 90

/-- Text-wrapping state machine: fold the characters, counting line
breaks. The state is (breaks so far, column on the current line); a
newline forces a break and resets the column, and exceeding the line
capacity forces a break with the character carried onto the new line. -/
def wrapState : Nat × Nat → List Char → Nat × Nat
  | st, [] => st
  | (b, col), c :: rest =>
    if c = '\n' then wrapState (b + 1, 0) rest
    else if col + 1 > maxCols then wrapState (b + 1, 1) rest
    else wrapState (b, col + 1) rest

/-- Number of layout lines the wrapped text occupies: one more than the
number of breaks. -/
def numLines (s : String) : Nat :=
  1 + (wrapState (0, 0) s.data).1

/-- Modelled from the spec: `pdfkit`'s `doc.heightOfString(text, {width,
lineGap: 4})` — the measurement routine lives in the external `pdfkit`
library, not in this repository. Per the spec's layout-engine contract it
is the wrapped height of the text at the target width: the number of
wrapped lines times the per-line advance (10pt font plus the 4pt
`lineGap`). -/
def heightOfString (s : String) : ℚ :=
  (numLines s : ℚ) * 14

/-- Height of the special-requirements box (`src/api/quote.js`
lines 924-927): `Math.max(80, heightOfString(text) + 24)`. -/
def textHeight (s : String) : ℚ :=
  max 80 (heightOfString s + 24)

/-- The vertical positions the job-sheet generator computes while
threading its running `yPos` cursor (`src/api/quote.js` lines 778-997). -/
structure Layout where
  customerY : ℚ
  pickupBoxY : ℚ
  deliveryBoxY : ℚ
  specialBox : Option (ℚ × ℚ)
  notesY : ℚ
  sigY : ℚ
  sigLineY : ℚ
  footerY : ℚ
deriving DecidableEq, Repr

/-- Cursor arithmetic of `generateJobSheetPDF` (`src/api/quote.js`
lines 778-997): `yPos` starts at 130 under the fixed header, advances
through the customer block (5 + 15 + 4 lines of 18 + 10 + 20), the pickup
and delivery boxes (5 + 20 + 95 each), conditionally the
special-requirements box (5 + 20, then its measured height plus 15), the
notes box (5 + 20 + 115), reaches the signature block, and the footer is
drawn at `doc.page.height - 70`. -/
def generateJobSheetPDF (d : QuoteRequest) : Layout :=
  let y0 : ℚ := 130
  let y1 := y0 + 5 + 15 + 4 * 18 + 10 + 20
  let y2 := y1 + 5 + 20
  let y3 := y2 + 95
  let y4 := y3 + 5 + 20
  let y5 := y4 + 95
  let sr := d.specialrequirements.getD ""
  let y6 :=
    if truthy d.specialrequirements then y5 + 5 + 20 + textHeight sr + 15
    else y5
  let y7 := y6 + 5 + 20
  let y8 := y7 + 115
  { customerY := y0
    pickupBoxY := y2
    deliveryBoxY := y4
    specialBox :=
      if truthy d.specialrequirements then some (y5 + 5 + 20, textHeight sr)
      else none
    notesY := y6
    sigY := y8
    sigLineY := y8 + 50
    footerY := pageHeight - 70 }

/-- Whether an effect is the database insert. -/
def Effect.isDbInsert : Effect → Bool
  | .insertRow _ => true
  | _ => false

/-- Whether an effect is an email send. -/
def Effect.isEmailSend : Effect → Bool
  | .sendEmail _ => true
  | _ => false

/-- Whether an effect is a log line that mentions the given text. -/
def Effect.logMentions (needle : String) : Effect → Bool
  | .log l => strContains l needle
  | _ => false

/-- End-to-end scenario A of the spec: a well-formed submission with no
attachments and no special requirements. -/
def dataA : QuoteRequest :=
  { fullname := "Jane Doe"
    email := "jane@example.com"
    phone := "07700900000"
    pianotype := none
    pickup_postcode := "N1 1AA"
    pickup_steps := 3
    delivery_postcode := "SW1A 1AA"
    delivery_steps := 0
    specialrequirements := none
    attachments := none }

/-- End-to-end scenario C of the spec: two well-formed attachments and one
malformed entry missing its filename. -/
def dataC : QuoteRequest :=
  { dataA with
    attachments := some
      [⟨some "photo1.jpg", some "QUJD"⟩,
       ⟨some "photo2.jpg", some "REVG"⟩,
       ⟨none, some "R0hJ"⟩] }

/-- A special-requirements text of twenty forced line breaks. -/
def twentyLines : String :=
  "\n\n\n\n\n\n\n\n\n\n\n\n\n\n\n\n\n\n\n\n"

/-- A submission whose special-requirements text spans twenty forced line
breaks. -/
def dataLong : QuoteRequest :=
  { dataA with specialrequirements := some twentyLines }

/-- A submission whose full name contains no alphanumeric character. -/
def dataBang : QuoteRequest :=
  { dataA with fullname := "!!!" }

/-- Scenario A with the full name in capitals: a different raw name with
the same slug. -/
def dataCaps : QuoteRequest :=
  { dataA with fullname := "JANE DOE" }

/-- End-to-end scenario B of the spec: scenario A with a malformed email. -/
def dataBadEmail : QuoteRequest :=
  { dataA with email := "not-an-email" }

/-- Scenario A with the phone field empty. -/
def dataNoPhone : QuoteRequest :=
  { dataA with phone := "" }

/-- A world in which every external call succeeds. -/
def wOk : World :=
  { now := 1700000123456
    isoNow := "2023-11-14T22:15:23.456Z"
    storageBaseUrl := "https://storage.example/"
    uploadResult := .ok ()
    insertResult := .ok ()
    businessEmail := .ok "em-1"
    customerEmail := .ok "em-2" }

/-- A world in which the storage upload fails. -/
def wUploadFail : World :=
  { wOk with uploadResult := .error "storage down" }

/-- A world in which the database insert fails. -/
def wInsertFail : World :=
  { wOk with insertResult := .error "db down" }

/-- A world in which the customer acknowledgement email fails. -/
def wCustFail : World :=
  { wOk with customerEmail := .error "smtp down" }

/-- A special-requirements text long enough to overflow any page: one
hundred forced line breaks. -/
def bigText : String :=
  String.mk (List.replicate 100 '\n')

theorem startsWithL_append (n s : List Char) : startsWithL n (n ++ s) = true := by
  induction n with
  | nil => rfl
  | cons a as ih => simp [startsWithL, ih]

theorem subOf_self_append (n s : List Char) : subOf n (n ++ s) = true := by
  cases n with
  | nil => cases s <;> simp [subOf, startsWithL]
  | cons a as =>
    have h := startsWithL_append (a :: as) s
    simp only [List.cons_append] at h
    simp [subOf, h]

theorem subOf_cons (n h : List Char) (c : Char) (hs : subOf n h = true) :
    subOf n (c :: h) = true := by
  simp [subOf, hs]

theorem subOf_append_left (n h p : List Char) (hs : subOf n h = true) :
    subOf n (p ++ h) = true := by
  induction p with
  | nil => exact hs
  | cons c p ih => exact subOf_cons _ _ _ ih

theorem strContains_mkPdfFileName (ref ts : String) :
    strContains (mkPdfFileName ref ts) ref = true := by
  show subOf ref.data (mkPdfFileName ref ts).data = true
  have h : (mkPdfFileName ref ts).data =
      "job-sheets/".data ++ (ref.data ++ ("-" ++ ts ++ ".pdf").data) := by
    simp [mkPdfFileName, String.data_append]
  rw [h]
  exact subOf_append_left _ _ _ (subOf_self_append _ _)

theorem wrapState_append (a b : List Char) (st : Nat × Nat) :
    wrapState st (a ++ b) = wrapState (wrapState st a) b := by
  induction a generalizing st with
  | nil => rfl
  | cons c rest ih =>
    cases st with
    | mk x y =>
      by_cases h : c = '\n'
      · simp [wrapState, h, ih]
      · by_cases h2 : y + 1 > maxCols <;> simp [wrapState, h, h2, ih]

theorem wrapState_fst_le (b : List Char) (st : Nat × Nat) :
    st.1 ≤ (wrapState st b).1 := by
  induction b generalizing st with
  | nil => exact le_rfl
  | cons c rest ih =>
    cases st with
    | mk x y =>
      by_cases h : c = '\n'
      · simpa [wrapState, h] using le_trans (Nat.le_succ x) (ih (x + 1, 0))
      · by_cases h2 : y + 1 > maxCols
        · simpa [wrapState, h, h2] using le_trans (Nat.le_succ x) (ih (x + 1, 1))
        · simpa [wrapState, h, h2] using ih (x, y + 1)

theorem wrapState_newlines (n : Nat) (st : Nat × Nat) :
    wrapState st (List.replicate n '\n') = (st.1 + n, if n = 0 then st.2 else 0) := by
  induction n generalizing st with
  | zero => simp [wrapState]
  | succ m ih =>
    cases st with
    | mk x y =>
      simp only [List.replicate_succ, wrapState, if_pos rfl]
      rw [ih]
      cases m <;> simp [Nat.add_assoc, Nat.add_comm 1]

theorem numLines_mono (s t : String) : numLines s ≤ numLines (s ++ t) := by
  have hd : (s ++ t).data = s.data ++ t.data := String.data_append s t
  unfold numLines
  rw [hd, wrapState_append]
  exact Nat.add_le_add_left (wrapState_fst_le _ _) 1

theorem textHeight_mono (s t : String) : textHeight s ≤ textHeight (s ++ t) := by
  unfold textHeight heightOfString
  have h : (numLines s : ℚ) ≤ (numLines (s ++ t) : ℚ) := by
    exact_mod_cast numLines_mono s t
  have h14 : (numLines s : ℚ) * 14 ≤ (numLines (s ++ t) : ℚ) * 14 := by
    nlinarith
  exact max_le_max le_rfl (by linarith)

theorem textHeight_unbounded (s : String) (M : ℚ) :
    ∃ u : String, M < textHeight (s ++ u) := by
  obtain ⟨n, hn⟩ := exists_nat_gt M
  refine ⟨String.mk (List.replicate n '\n'), ?_⟩
  have hd : (s ++ String.mk (List.replicate n '\n')).data
      = s.data ++ List.replicate n '\n' := String.data_append _ _
  have hlines : n ≤ numLines (s ++ String.mk (List.replicate n '\n')) := by
    unfold numLines
    rw [hd, wrapState_append, wrapState_newlines]
    simp only []
    omega
  have hq : (n : ℚ) ≤ (numLines (s ++ String.mk (List.replicate n '\n')) : ℚ) := by
    exact_mod_cast hlines
  have : (n : ℚ) ≤ textHeight (s ++ String.mk (List.replicate n '\n')) := by
    unfold textHeight heightOfString
    have h2 : (n : ℚ) ≤ (numLines (s ++ String.mk (List.replicate n '\n')) : ℚ) * 14 := by
      nlinarith
    exact le_trans h2 (le_trans (by linarith) (le_max_right 80 _))
  linarith

theorem collapse_subset : ∀ (cs : List Char) (c : Char), c ∈ collapse cs → c ∈ cs := by
  intro cs
  induction cs with
  | nil => simp [collapse]
  | cons a rest ih =>
    cases rest with
    | nil => simp [collapse]
    | cons b rest2 =>
      intro c hc
      by_cases h : a = '-' ∧ b = '-'
      · rw [show collapse (a :: b :: rest2) = collapse (b :: rest2) by
          simp [collapse, h]] at hc
        exact List.mem_cons_of_mem a (ih c hc)
      · rw [show collapse (a :: b :: rest2) = a :: collapse (b :: rest2) by
          simp [collapse, h]] at hc
        rcases List.mem_cons.mp hc with h1 | h2
        · exact h1 ▸ List.mem_cons_self a _
        · exact List.mem_cons_of_mem a (ih c h2)

theorem collapse_head : ∀ (rest : List Char) (b : Char),
    (collapse (b :: rest)).head? = some b := by
  intro rest
  induction rest with
  | nil => intro b; rfl
  | cons c rest2 ih =>
    intro b
    by_cases h : b = '-' ∧ c = '-'
    · rw [show collapse (b :: c :: rest2) = collapse (c :: rest2) by
        simp [collapse, h]]
      rw [ih c, h.1, h.2]
    · rw [show collapse (b :: c :: rest2) = b :: collapse (c :: rest2) by
        simp [collapse, h]]
      rfl

theorem collapse_chain : ∀ cs : List Char,
    (collapse cs).Chain' (fun a b => ¬(a = '-' ∧ b = '-')) := by
  intro cs
  induction cs with
  | nil => simp [collapse]
  | cons a rest ih =>
    cases rest with
    | nil => simp [collapse]
    | cons b rest2 =>
      by_cases h : a = '-' ∧ b = '-'
      · rw [show collapse (a :: b :: rest2) = collapse (b :: rest2) by
          simp [collapse, h]]
        exact ih
      · rw [show collapse (a :: b :: rest2) = a :: collapse (b :: rest2) by
          simp [collapse, h]]
        rw [List.chain'_cons']
        refine ⟨?_, ih⟩
        intro y hy
        rw [collapse_head rest2 b] at hy
        cases hy
        exact h

theorem head?_dropLast_some {α : Type} (l : List α) (c : α)
    (h : l.dropLast.head? = some c) : l.head? = some c := by
  match l with
  | [] => simp [List.dropLast] at h
  | [a] => simp [List.dropLast] at h
  | a :: b :: t =>
    rw [show (a :: b :: t).dropLast = a :: (b :: t).dropLast from rfl] at h
    exact h

theorem chain_lastTwo {R : Char → Char → Prop} :
    ∀ l : List Char, l.Chain' R → ∀ x y : Char,
      l.dropLast.getLast? = some x → l.getLast? = some y → R x y := by
  intro l
  induction l with
  | nil => intro _ x y hx; simp [List.dropLast] at hx
  | cons a rest ih =>
    intro hc x y hx hy
    cases rest with
    | nil => simp [List.dropLast] at hx
    | cons b t =>
      rw [show (a :: b :: t).dropLast = a :: (b :: t).dropLast from rfl] at hx
      cases t with
      | nil =>
        simp [List.dropLast] at hx
        simp [List.getLast?] at hy
        rw [← hx, ← hy]
        exact (List.chain'_cons.mp hc).1
      | cons c t2 =>
        rw [show (b :: c :: t2).dropLast = b :: (c :: t2).dropLast from rfl] at hx
        rw [List.getLast?_cons_cons] at hx
        rw [show (b :: (c :: t2).dropLast) = (b :: c :: t2).dropLast from rfl] at hx
        rw [List.getLast?_cons_cons] at hy
        exact ih (List.chain'_cons.mp hc).2 x y hx hy

theorem dropEdge_head (L : List Char)
    (hc : L.Chain' (fun a b => ¬(a = '-' ∧ b = '-'))) :
    (dropEdgeHyphens L).head? ≠ some '-' := by
  unfold dropEdgeHyphens
  by_cases h1 : L.head? = some '-'
  · cases L with
    | nil => simp at h1
    | cons a t =>
      have ha : a = '-' := by simpa using h1
      subst ha
      simp only [if_pos h1, List.tail_cons]
      have ht : t.head? ≠ some '-' := by
        intro habs
        cases t with
        | nil => simp at habs
        | cons b t2 =>
          have hb : b = '-' := by simpa using habs
          have hr := (List.chain'_cons'.mp hc).1 b (by simp)
          exact hr ⟨rfl, hb⟩
      by_cases h2 : t.getLast? = some '-'
      · rw [if_pos h2]
        intro habs
        exact ht (head?_dropLast_some t '-' habs)
      · rw [if_neg h2]
        exact ht
  · simp only [if_neg h1]
    by_cases h2 : L.getLast? = some '-'
    · rw [if_pos h2]
      intro habs
      exact h1 (head?_dropLast_some L '-' habs)
    · rw [if_neg h2]
      exact h1

theorem dropEdge_last (L : List Char)
    (hc : L.Chain' (fun a b => ¬(a = '-' ∧ b = '-'))) :
    (dropEdgeHyphens L).getLast? ≠ some '-' := by
  unfold dropEdgeHyphens
  have hc1 : (if L.head? = some '-' then L.tail else L).Chain'
      (fun a b => ¬(a = '-' ∧ b = '-')) := by
    by_cases h1 : L.head? = some '-'
    · rw [if_pos h1]; exact hc.tail
    · rw [if_neg h1]; exact hc
  set cs1 := if L.head? = some '-' then L.tail else L with hcs1
  by_cases h2 : cs1.getLast? = some '-'
  · rw [if_pos h2]
    intro habs
    exact chain_lastTwo cs1 hc1 '-' '-' habs h2 ⟨rfl, rfl⟩
  · rw [if_neg h2]
    exact h2

theorem dropEdge_chain (L : List Char)
    (hc : L.Chain' (fun a b => ¬(a = '-' ∧ b = '-'))) :
    (dropEdgeHyphens L).Chain' (fun a b => ¬(a = '-' ∧ b = '-')) := by
  unfold dropEdgeHyphens
  have hc1 : (if L.head? = some '-' then L.tail else L).Chain'
      (fun a b => ¬(a = '-' ∧ b = '-')) := by
    by_cases h1 : L.head? = some '-'
    · rw [if_pos h1]; exact hc.tail
    · rw [if_neg h1]; exact hc
  set cs1 := if L.head? = some '-' then L.tail else L
  by_cases h2 : cs1.getLast? = some '-'
  · rw [if_pos h2]
    exact hc1.prefix (List.dropLast_prefix cs1)
  · rw [if_neg h2]
    exact hc1

theorem dropEdge_subset (L : List Char) (c : Char)
    (h : c ∈ dropEdgeHyphens L) : c ∈ L := by
  unfold dropEdgeHyphens at h
  set cs1 := if L.head? = some '-' then L.tail else L with hcs1
  have hsub1 : cs1 ⊆ L := by
    rw [hcs1]
    by_cases h1 : L.head? = some '-'
    · rw [if_pos h1]; exact L.tail_sublist.subset
    · rw [if_neg h1]; exact fun x hx => hx
  by_cases h2 : cs1.getLast? = some '-'
  · rw [if_pos h2] at h
    exact hsub1 (cs1.dropLast_sublist.subset h)
  · rw [if_neg h2] at h
    exact hsub1 h

theorem slugMap_good (c : Char) : isSlugChar (slugMap c) = true ∨ slugMap c = '-' := by
  unfold slugMap
  by_cases h : isSlugChar c.toLower = true
  · left; simp [h]
  · right; simp [h]

theorem collapse_all_hyphens : ∀ m : List Char, (∀ c ∈ m, c = '-') →
    collapse m = [] ∨ collapse m = ['-'] := by
  intro m
  induction m with
  | nil => intro _; left; rfl
  | cons a rest ih =>
    intro hall
    cases rest with
    | nil =>
      right
      rw [show collapse [a] = [a] from rfl, hall a (by simp)]
    | cons b rest2 =>
      have ha : a = '-' := hall a (by simp)
      have hb : b = '-' := hall b (by simp)
      rw [show collapse (a :: b :: rest2) = collapse (b :: rest2) by
        simp [collapse, ha, hb]]
      exact ih (fun c hc => hall c (List.mem_cons_of_mem a hc))

/-- C7: for every request in which fullname, email, or phone is missing or
empty, or in which email fails the format check, the handler performs zero
external calls (the effect trace is empty, so there is no render, upload,
insert, email send, or even log line) and returns a validation failure
whose `required` list names every missing field. -/
theorem c7_validation_no_side_effects (w : World) (d : QuoteRequest)
    (h : d.fullname = "" ∨ d.email = "" ∨ d.phone = "" ∨ validEmail d.email = false) :
    (handlePost w d).2 = [] ∧
    (handlePost w d).1.isValidation = true ∧
    (d.fullname = "" → "fullname" ∈ (handlePost w d).1.requiredFields) ∧
    (d.email = "" → "email" ∈ (handlePost w d).1.requiredFields) ∧
    (d.phone = "" → "phone" ∈ (handlePost w d).1.requiredFields) := by
  by_cases hm : d.fullname = "" ∨ d.email = "" ∨ d.phone = ""
  · simp [handlePost, hm, Response.isValidation, Response.requiredFields]
  · have hv : validEmail d.email = false := by tauto
    push_neg at hm
    simp [handlePost, hm.1, hm.2.1, hm.2.2, hv,
      Response.isValidation, Response.requiredFields]

/-- Witness for C7: a submission with an empty phone field is rejected
with an empty effect trace and a `required` list naming the phone field. -/
theorem c7_witness :
    (handlePost wOk dataNoPhone).2 = [] ∧
    (handlePost wOk dataNoPhone).1.isValidation = true ∧
    (dataNoPhone.fullname = "" → "fullname" ∈ (handlePost wOk dataNoPhone).1.requiredFields) ∧
    (dataNoPhone.email = "" → "email" ∈ (handlePost wOk dataNoPhone).1.requiredFields) ∧
    (dataNoPhone.phone = "" → "phone" ∈ (handlePost wOk dataNoPhone).1.requiredFields) :=
  c7_validation_no_side_effects wOk dataNoPhone (by decide)

/-- C3: for every submission in which the storage upload fails, the
pipeline aborts with the 500 error response produced by the thrown
storage exception, and the effect trace contains no database insert and
no email send of either kind. -/
theorem c3_upload_failure_aborts (w : World) (d : QuoteRequest) (e : String)
    (hv : ¬(d.fullname = "" ∨ d.email = "" ∨ d.phone = ""))
    (he : validEmail d.email = true)
    (hu : w.uploadResult = .error e) :
    (handlePost w d).1 = .serverError "Failed to upload PDF to storage" ∧
    ((handlePost w d).2.all fun eff => !eff.isDbInsert && !eff.isEmailSend) = true := by
  push_neg at hv
  simp [handlePost, hv.1, hv.2.1, hv.2.2, he, hu,
    Effect.isDbInsert, Effect.isEmailSend]

/-- Witness for C3: the scenario A submission against a world whose
storage upload fails. -/
theorem c3_witness :
    (handlePost wUploadFail dataA).1 = .serverError "Failed to upload PDF to storage" ∧
    ((handlePost wUploadFail dataA).2.all fun eff => !eff.isDbInsert && !eff.isEmailSend) = true :=
  c3_upload_failure_aborts wUploadFail dataA "storage down" (by decide) (by decide) rfl

/-- C5: for every submission in which the database insert fails after a
successful upload, the pipeline continues — both the business notification
and the customer acknowledgement emails are still sent, the caller
receives the success response, and in fact the handler's behaviour never
depends on the insert outcome at all. -/
theorem c5_insert_failure_nonfatal (w : World) (d : QuoteRequest) (e id : String)
    (hv : ¬(d.fullname = "" ∨ d.email = "" ∨ d.phone = ""))
    (he : validEmail d.email = true)
    (hu : w.uploadResult = .ok ())
    (hi : w.insertResult = .error e)
    (hb : w.businessEmail = .ok id) :
    (handlePost w d).1 = .success
      { emailId := some id
        pdfUrl := w.storageBaseUrl ++ mkPdfFileName (mkJobRef w.now) (sanitizeTs w.isoNow)
        jobRef := mkJobRef w.now
        attachments := (allAttachmentsOf d (mkJobRef w.now)).length } ∧
    Effect.sendEmail (businessMsg d (mkJobRef w.now)) ∈ (handlePost w d).2 ∧
    Effect.sendEmail (customerMsg d) ∈ (handlePost w d).2 ∧
    handlePost w d = handlePost { w with insertResult := .ok () } d := by
  push_neg at hv
  refine ⟨?_, ?_, ?_, ?_⟩
  · simp [handlePost, hv.1, hv.2.1, hv.2.2, he, hu, hb]
  · simp [handlePost, hv.1, hv.2.1, hv.2.2, he, hu, hb]
  · simp [handlePost, hv.1, hv.2.1, hv.2.2, he, hu, hb]
  · cases w
    rfl

/-- Witness for C5: the scenario A submission against a world whose
database insert fails but whose other calls succeed. -/
theorem c5_witness :
    (handlePost wInsertFail dataA).1 = .success
      { emailId := some "em-1"
        pdfUrl := wInsertFail.storageBaseUrl ++
          mkPdfFileName (mkJobRef wInsertFail.now) (sanitizeTs wInsertFail.isoNow)
        jobRef := mkJobRef wInsertFail.now
        attachments := (allAttachmentsOf dataA (mkJobRef wInsertFail.now)).length } ∧
    Effect.sendEmail (businessMsg dataA (mkJobRef wInsertFail.now)) ∈ (handlePost wInsertFail dataA).2 ∧
    Effect.sendEmail (customerMsg dataA) ∈ (handlePost wInsertFail dataA).2 ∧
    handlePost wInsertFail dataA = handlePost { wInsertFail with insertResult := .ok () } dataA :=
  c5_insert_failure_nonfatal wInsertFail dataA "db down" "em-1"
    (by decide) (by decide) rfl rfl rfl

/-- C6 (amended): when the customer acknowledgement email fails after the
business notification succeeded, the handler still returns the overall
success response carrying the business email's identifier, but the failure
is not logged — the handler neither inspects nor records the customer
send outcome, so its entire behaviour is identical whatever that outcome
is. -/
theorem c6_customer_failure_ignored (w : World) (d : QuoteRequest) (e id : String)
    (r : Except String String)
    (hv : ¬(d.fullname = "" ∨ d.email = "" ∨ d.phone = ""))
    (he : validEmail d.email = true)
    (hu : w.uploadResult = .ok ())
    (hb : w.businessEmail = .ok id)
    (hc : w.customerEmail = .error e) :
    (handlePost w d).1 = .success
      { emailId := some id
        pdfUrl := w.storageBaseUrl ++ mkPdfFileName (mkJobRef w.now) (sanitizeTs w.isoNow)
        jobRef := mkJobRef w.now
        attachments := (allAttachmentsOf d (mkJobRef w.now)).length } ∧
    Effect.sendEmail (customerMsg d) ∈ (handlePost w d).2 ∧
    handlePost w d = handlePost { w with customerEmail := r } d := by
  push_neg at hv
  refine ⟨?_, ?_, ?_⟩
  · simp [handlePost, hv.1, hv.2.1, hv.2.2, he, hu, hb]
  · simp [handlePost, hv.1, hv.2.1, hv.2.2, he, hu, hb]
  · cases w
    rfl

/-- Witness for C6: the scenario A submission against a world whose
customer acknowledgement email fails. -/
theorem c6_witness :
    (handlePost wCustFail dataA).1 = .success
      { emailId := some "em-1"
        pdfUrl := wCustFail.storageBaseUrl ++
          mkPdfFileName (mkJobRef wCustFail.now) (sanitizeTs wCustFail.isoNow)
        jobRef := mkJobRef wCustFail.now
        attachments := (allAttachmentsOf dataA (mkJobRef wCustFail.now)).length } ∧
    Effect.sendEmail (customerMsg dataA) ∈ (handlePost wCustFail dataA).2 ∧
    handlePost wCustFail dataA = handlePost { wCustFail with customerEmail := .ok "em-2" } dataA :=
  c6_customer_failure_ignored wCustFail dataA "smtp down" "em-1" (.ok "em-2")
    (by decide) (by decide) rfl rfl rfl

/-- C6 counterexample: at a concrete submission whose customer email fails
with the message "smtp down", the handler returns the success response
carrying the business email identifier, yet no log line in the effect
trace mentions the failure — contradicting the claim that the failure is
logged. -/
theorem c6_counterexample :
    wCustFail.customerEmail = .error "smtp down" ∧
    (handlePost wCustFail dataA).1 = .success
      { emailId := some "em-1"
        pdfUrl := "https://storage.example/job-sheets/PMT-123456-2023-11-14T22-15-23-456Z.pdf"
        jobRef := "PMT-123456"
        attachments := 1 } ∧
    ((handlePost wCustFail dataA).2.all fun eff => !(eff.logMentions "smtp down")) = true := by
  decide

theorem strContains_attachName (ref : String) :
    strContains ("Job-Sheet-" ++ ref ++ ".pdf") ref = true := by
  show subOf ref.data _ = true
  have h : ("Job-Sheet-" ++ ref ++ ".pdf").data =
      "Job-Sheet-".data ++ (ref.data ++ ".pdf".data) := by
    simp [String.data_append]
  rw [h]
  exact subOf_append_left _ _ _ (subOf_self_append _ _)

/-- C1 (amended): for every valid submission, the generated jobReference
appears verbatim in the stored document's filename and is exactly the
`job_ref` field of the persisted database row (and it also appears in the
filename of the job-sheet attachment of the business notification email);
the subject line of that email, however, is built only from the customer
name and photo count and does not in general carry the reference. -/
theorem c1_jobref_roundtrip (w : World) (d : QuoteRequest)
    (hv : ¬(d.fullname = "" ∨ d.email = "" ∨ d.phone = ""))
    (he : validEmail d.email = true)
    (hu : w.uploadResult = .ok ()) :
    strContains (mkPdfFileName (mkJobRef w.now) (sanitizeTs w.isoNow)) (mkJobRef w.now) = true ∧
    Effect.upload (mkPdfFileName (mkJobRef w.now) (sanitizeTs w.isoNow)) ∈ (handlePost w d).2 ∧
    (mkRow d (mkJobRef w.now)
      (w.storageBaseUrl ++ mkPdfFileName (mkJobRef w.now) (sanitizeTs w.isoNow))
      w.isoNow).job_ref = mkJobRef w.now ∧
    Effect.insertRow (mkRow d (mkJobRef w.now)
      (w.storageBaseUrl ++ mkPdfFileName (mkJobRef w.now) (sanitizeTs w.isoNow))
      w.isoNow) ∈ (handlePost w d).2 ∧
    strContains ("Job-Sheet-" ++ mkJobRef w.now ++ ".pdf") (mkJobRef w.now) = true := by
  push_neg at hv
  refine ⟨strContains_mkPdfFileName _ _, ?_, rfl, ?_, strContains_attachName _⟩
  · cases hbe : w.businessEmail <;>
      simp [handlePost, hv.1, hv.2.1, hv.2.2, he, hu, hbe]
  · cases hbe : w.businessEmail <;>
      simp [handlePost, hv.1, hv.2.1, hv.2.2, he, hu, hbe]

/-- Witness for C1: the scenario A submission against the all-success
world. -/
theorem c1_witness :
    strContains (mkPdfFileName (mkJobRef wOk.now) (sanitizeTs wOk.isoNow)) (mkJobRef wOk.now) = true ∧
    Effect.upload (mkPdfFileName (mkJobRef wOk.now) (sanitizeTs wOk.isoNow)) ∈ (handlePost wOk dataA).2 ∧
    (mkRow dataA (mkJobRef wOk.now)
      (wOk.storageBaseUrl ++ mkPdfFileName (mkJobRef wOk.now) (sanitizeTs wOk.isoNow))
      wOk.isoNow).job_ref = mkJobRef wOk.now ∧
    Effect.insertRow (mkRow dataA (mkJobRef wOk.now)
      (wOk.storageBaseUrl ++ mkPdfFileName (mkJobRef wOk.now) (sanitizeTs wOk.isoNow))
      wOk.isoNow) ∈ (handlePost wOk dataA).2 ∧
    strContains ("Job-Sheet-" ++ mkJobRef wOk.now ++ ".pdf") (mkJobRef wOk.now) = true :=
  c1_jobref_roundtrip wOk dataA (by decide) (by decide) rfl

/-- C1 counterexample: at the concrete scenario A submission the job
reference is `PMT-123456` and the internal notification email actually
sent carries the subject `Piano Quote - Jane Doe + PDF`, in which the
reference does not occur — refuting part (b) of the claim. -/
theorem c1_counterexample :
    mkJobRef wOk.now = "PMT-123456" ∧
    Effect.sendEmail (businessMsg dataA (mkJobRef wOk.now)) ∈ (handlePost wOk dataA).2 ∧
    (businessMsg dataA (mkJobRef wOk.now)).subject = "Piano Quote - Jane Doe + PDF" ∧
    strContains (businessMsg dataA (mkJobRef wOk.now)).subject (mkJobRef wOk.now) = false := by
  decide

/-- C4 (amended): the count of attachments in the success response is the
number of decoded customer attachments plus one — the job-sheet PDF is
appended to the list before its length is reported — while the persisted
row's `attachments_count` records the decoded customer attachments alone.
For scenario C (two well-formed entries, one missing its filename) the
response therefore reports 3, not 2; the row records 2. -/
theorem c4_attachment_counts (w : World) (d : QuoteRequest) (id : String)
    (hv : ¬(d.fullname = "" ∨ d.email = "" ∨ d.phone = ""))
    (he : validEmail d.email = true)
    (hu : w.uploadResult = .ok ())
    (hb : w.businessEmail = .ok id) :
    (handlePost w d).1.attachCount = some ((customerAttachmentsOf d).length + 1) ∧
    (mkRow d (mkJobRef w.now)
      (w.storageBaseUrl ++ mkPdfFileName (mkJobRef w.now) (sanitizeTs w.isoNow))
      w.isoNow).attachments_count = (customerAttachmentsOf d).length := by
  push_neg at hv
  refine ⟨?_, rfl⟩
  simp [handlePost, hv.1, hv.2.1, hv.2.2, he, hu, hb,
    Response.attachCount, allAttachmentsOf]

/-- Witness for C4: scenario C against the all-success world; the decoded
attachment count is 2 and the response reports 3. -/
theorem c4_witness :
    (handlePost wOk dataC).1.attachCount = some ((customerAttachmentsOf dataC).length + 1) ∧
    (mkRow dataC (mkJobRef wOk.now)
      (wOk.storageBaseUrl ++ mkPdfFileName (mkJobRef wOk.now) (sanitizeTs wOk.isoNow))
      wOk.isoNow).attachments_count = (customerAttachmentsOf dataC).length :=
  c4_attachment_counts wOk dataC "em-1" (by decide) (by decide) rfl rfl

/-- C4 counterexample: for the concrete scenario C submission (two
well-formed attachments, one missing its filename) the decoded attachment
list has length 2, yet the success response reports an attachment count
of 3, not 2 — refuting the claim. -/
theorem c4_counterexample :
    (customerAttachmentsOf dataC).length = 2 ∧
    (handlePost wOk dataC).1.attachCount = some 3 ∧
    ¬ (handlePost wOk dataC).1.attachCount = some 2 := by
  decide

/-- C8: the internal notification email carries References and
In-Reply-To headers both equal to the one thread identifier derived from
the slug of the full name, so any two submissions whose names normalise
to the same slug receive identical threading headers (whatever their job
references are). -/
theorem c8_threading_headers (d1 d2 : QuoteRequest) (w : World)
    (hv : ¬(d1.fullname = "" ∨ d1.email = "" ∨ d1.phone = ""))
    (he : validEmail d1.email = true)
    (hu : w.uploadResult = .ok ()) :
    (businessMsg d1 (mkJobRef w.now)).headers =
      [("References", threadId d1.fullname),
       ("In-Reply-To", threadId d1.fullname),
       ("X-Entity-Ref-ID", "customer-" ++ slug d1.fullname)] ∧
    Effect.sendEmail (businessMsg d1 (mkJobRef w.now)) ∈ (handlePost w d1).2 ∧
    (slug d1.fullname = slug d2.fullname →
      ∀ r1 r2 : String, (businessMsg d1 r1).headers = (businessMsg d2 r2).headers) := by
  push_neg at hv
  refine ⟨rfl, ?_, ?_⟩
  · cases hbe : w.businessEmail <;>
      simp [handlePost, hv.1, hv.2.1, hv.2.2, he, hu, hbe]
  · intro hs r1 r2
    simp [businessMsg, threadId, hs]

/-- Witness for C8: "Jane Doe" and "JANE DOE" share the slug `jane-doe`
and their notification emails carry identical threading headers. -/
theorem c8_witness :
    (businessMsg dataA (mkJobRef wOk.now)).headers =
      [("References", threadId dataA.fullname),
       ("In-Reply-To", threadId dataA.fullname),
       ("X-Entity-Ref-ID", "customer-" ++ slug dataA.fullname)] ∧
    Effect.sendEmail (businessMsg dataA (mkJobRef wOk.now)) ∈ (handlePost wOk dataA).2 ∧
    (businessMsg dataA "PMT-123456").headers = (businessMsg dataCaps "PMT-999999").headers :=
  ⟨(c8_threading_headers dataA dataCaps wOk (by decide) (by decide) rfl).1,
   (c8_threading_headers dataA dataCaps wOk (by decide) (by decide) rfl).2.1,
   (c8_threading_headers dataA dataCaps wOk (by decide) (by decide) rfl).2.2 (by decide) _ _⟩

/-- C2 (amended): for every non-empty specialRequirements text the box
height is bounded below by the fixed minimum of 80 points and is
monotonically non-decreasing as the text grows, but it has no configured
maximum: it is clamped on neither side above, growing beyond any bound
for long enough text; the box drawn by the layout engine uses exactly
this measured height. -/
theorem c2_textheight_behaviour (s t : String) (hs : truthy (some s) = true) :
    80 ≤ textHeight s ∧
    textHeight s ≤ textHeight (s ++ t) ∧
    (∀ M : ℚ, ∃ u : String, M < textHeight (s ++ u)) ∧
    (∀ d : QuoteRequest, d.specialrequirements = some s →
      (generateJobSheetPDF d).specialBox = some (517, textHeight s)) := by
  refine ⟨le_max_left _ _, textHeight_mono s t, textHeight_unbounded s, ?_⟩
  intro d hd
  simp only [generateJobSheetPDF, hd, hs, if_pos, Option.getD_some]
  norm_num

/-- Witness for C2: concrete non-empty texts exercising the bounds, the
monotone growth, and the layout's use of the measured height. -/
theorem c2_witness :
    80 ≤ textHeight "Fragile" ∧
    textHeight "Fragile" ≤ textHeight ("Fragile" ++ " piano") ∧
    (generateJobSheetPDF dataLong).specialBox =
      some (517, textHeight twentyLines) := by
  have h1 := c2_textheight_behaviour "Fragile" " piano" (by decide)
  have h2 := c2_textheight_behaviour twentyLines "" (by decide)
  exact ⟨h1.1, h1.2.1, h2.2.2.2 dataLong rfl⟩

/-- C2 counterexample: a concrete 100-line special-requirements text
measures 1438 points — more than the whole A4 page height of 841.89 — and
appending further text increases the height still further, so the height
is neither bounded above by a fixed maximum nor does it plateau. -/
theorem c2_counterexample :
    truthy (some bigText) = true ∧
    pageHeight < textHeight bigText ∧
    textHeight bigText < textHeight (bigText ++ bigText) := by
  refine ⟨by decide, ?_, ?_⟩
  · have h1 : numLines bigText = 101 := by decide
    norm_num [pageHeight, textHeight, heightOfString, h1]
  · have h1 : numLines bigText = 101 := by decide
    have h2 : numLines (bigText ++ bigText) = 201 := by decide
    norm_num [textHeight, heightOfString, h1, h2]

/-- C9 (amended): the footer block is drawn at the fixed vertical position
pageHeight minus 70 — pinned 70 points above the bottom of the page — for
every submission, independent of the running cursor and in particular of
the special-requirements content; it is not positioned after the
signature block, and short documents are not vertically compact. -/
theorem c9_footer_pinned (d : QuoteRequest) :
    (generateJobSheetPDF d).footerY = pageHeight - 70 ∧
    ∀ d2 : QuoteRequest, (generateJobSheetPDF d).footerY = (generateJobSheetPDF d2).footerY := by
  exact ⟨rfl, fun d2 => rfl⟩

/-- C9 counterexample: scenario A without special requirements puts the
signature block at cursor 632, and the same submission with a 20-line
special-requirements text puts it at 990, yet both documents draw the
footer at the same fixed 771.89 — for the longer document the footer even
sits above the signature block — so the footer is not positioned directly
after the signature block at the running cursor. -/
theorem c9_counterexample :
    (generateJobSheetPDF dataA).sigY = 632 ∧
    (generateJobSheetPDF dataLong).sigY = 990 ∧
    (generateJobSheetPDF dataLong).footerY = (generateJobSheetPDF dataA).footerY ∧
    (generateJobSheetPDF dataLong).footerY < (generateJobSheetPDF dataLong).sigY := by
  have h1 : numLines twentyLines = 21 := by decide
  have hth : textHeight twentyLines = 318 := by
    rw [textHeight, heightOfString, h1]
    rw [show ((21 : ℕ) : ℚ) * 14 + 24 = 318 by norm_num]
    exact max_eq_right (by norm_num)
  have htr : truthy (some twentyLines) = true := by decide
  refine ⟨?_, ?_, rfl, ?_⟩
  · simp [generateJobSheetPDF, dataA, truthy]
    norm_num
  · simp [generateJobSheetPDF, dataLong, dataA, htr, hth]
    norm_num
  · simp [generateJobSheetPDF, dataLong, dataA, htr, hth, pageHeight]
    norm_num

/-- C10: for every input fullname the derived slug contains only
lowercase letters, digits and hyphens, never two consecutive hyphens, and
never a leading or trailing hyphen; when the fullname has no alphanumeric
character the slug is the empty string and the submission is still
accepted (validation never inspects the slug). -/
theorem c10_slug_shape (s : String) :
    (∀ c ∈ (slug s).data, isSlugChar c = true ∨ c = '-') ∧
    (slug s).data.Chain' (fun a b => ¬(a = '-' ∧ b = '-')) ∧
    (slug s).data.head? ≠ some '-' ∧
    (slug s).data.getLast? ≠ some '-' ∧
    ((∀ c ∈ s.data, isSlugChar c.toLower = false) → slug s = "") ∧
    (∀ (w : World) (d : QuoteRequest), d.fullname = s → s ≠ "" → d.phone ≠ "" →
      validEmail d.email = true → (handlePost w d).1.isValidation = false) := by
  refine ⟨?_, ?_, ?_, ?_, ?_, ?_⟩
  · intro c hc
    have hc2 : c ∈ collapse ((s.data).map slugMap) :=
      dropEdge_subset _ c hc
    have hc3 : c ∈ (s.data).map slugMap := collapse_subset _ c hc2
    obtain ⟨c0, _, hmap⟩ := List.mem_map.mp hc3
    rw [← hmap]
    exact slugMap_good c0
  · exact dropEdge_chain _ (collapse_chain _)
  · exact dropEdge_head _ (collapse_chain _)
  · exact dropEdge_last _ (collapse_chain _)
  · intro hall
    have hm : ∀ c ∈ (s.data).map slugMap, c = '-' := by
      intro c hc
      obtain ⟨c0, hc0, hmap⟩ := List.mem_map.mp hc
      rw [← hmap]
      unfold slugMap
      simp [hall c0 hc0]
    rcases collapse_all_hyphens _ hm with h | h
    · show String.mk (dropEdgeHyphens (collapse ((s.data).map slugMap))) = ""
      rw [h]
      decide
    · show String.mk (dropEdgeHyphens (collapse ((s.data).map slugMap))) = ""
      rw [h]
      decide
  · intro w d hd hs hp hve
    have h1 : ¬(d.fullname = "" ∨ d.email = "" ∨ d.phone = "") := by
      push_neg
      refine ⟨by rw [hd]; exact hs, ?_, hp⟩
      intro h0
      rw [h0] at hve
      exact absurd hve (by decide)
    cases hup : w.uploadResult with
    | error e => simp [handlePost, h1, hve, hup, Response.isValidation]
    | ok u =>
      cases hbe : w.businessEmail <;>
        simp [handlePost, h1, hve, hup, hbe, Response.isValidation]

/-- Witness for C10: a name with no alphanumeric characters slugs to the
empty string, a name with punctuation gets no leading hyphen, and the
all-punctuation submission is still accepted. -/
theorem c10_witness :
    slug "!!!" = "" ∧
    (slug "Mr. O Brien Jr.").data.head? ≠ some '-' ∧
    (handlePost wOk dataBang).1.isValidation = false := by
  refine ⟨(c10_slug_shape "!!!").2.2.2.2.1 (by decide),
    (c10_slug_shape "Mr. O Brien Jr.").2.2.1,
    (c10_slug_shape "!!!").2.2.2.2.2 wOk dataBang rfl (by decide) (by decide) (by decide)⟩

end PianoMove
